import Mathlib

/-!
Shallow embedding of the opinionated Git workflow of this repository
(an Electron/React Git client).  The embedded code:

* `pullCurrentBranch` — src/app/components/WorkView.tsx, the
  auto-stash-aware pull with rebase;
* `commitChanges` — the behind-check-aware commit (its service body is
  modelled from the spec, only its caller is in the sources);
* `createRepositoryContext`, `detectProvider`, `getDefaultBranch`,
  `getRemoteUrl` — the repository-context factory module;
* the `select-repo` IPC handler of the repo handlers module.

Git commands are not executed: every underlying git invocation is an
awaited call into the `simple-git` layer, so each operation is embedded
as a function of an *environment* record holding the response (success
value or thrown error message) of each git call the operation can make.
Each operation also returns the trace of git commands it issued, so that
claims about which commands run (and in which order) are statable.
-/

/-- JS `Array.prototype.includes` / substring search on char lists:
`containsSub needle hay` is true iff `needle` occurs contiguously in `hay`. -/
def containsSub (needle : List Char) : List Char → Bool
  | [] => needle.isEmpty
  | c :: cs => needle.isPrefixOf (c :: cs) || containsSub needle cs

/-- JS `String.prototype.includes`. -/
def strIncludes (s needle : String) : Bool :=
  containsSub needle.data s.data

/-- A single apostrophe character, used in messages the source matches on. -/
def apostrophe : String := String.singleton (Char.ofNat 39)

/-- The literal `doesn't track` that `pullCurrentBranch` greps for in the
pull error message. -/
def doesntTrackNeedle : String := "doesn" ++ apostrophe ++ "t track"

/-- One git command issued through the simple-git handle, with its
arguments, mirroring the call shapes in the source. -/
inductive GitCmd where
  | branchLocal : GitCmd
  | fetch (remote : String) (branch : String) : GitCmd
  | status : GitCmd
  | raw (args : List String) : GitCmd
  | pull (remote : String) (branch : String) (options : List String) : GitCmd
  | rebase (args : List String) : GitCmd
deriving DecidableEq, Repr, BEq

/-- The fields of the simple-git `StatusResult` that `pullCurrentBranch`
reads: the behind-count and the five dirtiness lists. -/
structure GitStatusRec where
  behind : Nat
  modified : List String
  not_added : List String
  created : List String
  deleted : List String
  staged : List String
deriving DecidableEq, Repr

/-- Environment for one run of `pullCurrentBranch`: the response of each
git call it can make.  `Except.error m` models the call rejecting with an
error whose message is `m`. -/
structure GitEnv where
  branchLocalCurrent : Except String (Option String)
  fetchResult : Except String Unit
  statusResult : Except String GitStatusRec
  stashPushResult : Except String Unit
  pullResult : Except String Unit
  stashPopResult : Except String Unit
deriving Repr

/-- The result record `pullCurrentBranch` resolves with
(`{ success, message, hadConflicts?, autoStashed? }`); `none` models an
omitted optional field. -/
structure PullResult where
  success : Bool
  message : String
  hadConflicts : Option Bool
  autoStashed : Option Bool
deriving DecidableEq, Repr

/-- A full run of `pullCurrentBranch`: its result, the final value of the
internal `didStash` flag, and the trace of git commands issued. -/
structure PullRun where
  result : PullResult
  didStash : Bool
  trace : List GitCmd
deriving Repr

/-- The auto-stash command
`git.raw(['stash', 'push', '--include-untracked', '-m', 'ledger-auto-stash-for-pull'])`. -/
def stashPushCmd : GitCmd :=
  .raw ["stash", "push", "--include-untracked", "-m", "ledger-auto-stash-for-pull"]

/-- The stash restore command `git.raw(['stash', 'pop'])`. -/
def stashPopCmd : GitCmd := .raw ["stash", "pop"]

/-- The best-effort rebase abort command `git.rebase(['--abort'])`. -/
def rebaseAbortCmd : GitCmd := .rebase ["--abort"]

/-- The dirtiness check of `pullCurrentBranch`: any of modified,
not_added (untracked), created, deleted or staged non-empty. -/
def hasUncommittedChanges (st : GitStatusRec) : Bool :=
  !st.modified.isEmpty || !st.not_added.isEmpty || !st.created.isEmpty ||
  !st.deleted.isEmpty || !st.staged.isEmpty

/-- The conflict check applied to a stash-pop error message:
`stashMsg.includes('conflict') || stashMsg.includes('CONFLICT')`. -/
def popConflictSignal (m : String) : Bool :=
  strIncludes m "conflict" || strIncludes m "CONFLICT"

/-- The conflict check applied to the outer pull error message. -/
def pullConflictSignal (m : String) : Bool :=
  strIncludes m "conflict" || strIncludes m "CONFLICT" ||
  strIncludes m "Merge conflict" || strIncludes m "could not apply"

/-- The no-tracking-branch check applied to the outer pull error message:
`includes('no tracking') || includes("doesn't track")`. -/
def noTrackingSignal (m : String) : Bool :=
  strIncludes m "no tracking" || strIncludes m doesntTrackNeedle

/-- The English plural suffix of the pulled-commit message:
`behind > 1 ? 's' : ''`. -/
def pluralS (n : Nat) : String := if n > 1 then "s" else ""

/-- The outer `catch` block of `pullCurrentBranch`: best-effort stash pop
when `didStash`, then classification of the error message (conflict,
no-tracking-branch, or raw failure).  The pop and the rebase abort are
attempted with their own failures swallowed, so their environment results
are never read. -/
def pullCatch (didStash : Bool) (errorMessage : String) (trace : List GitCmd) : PullRun :=
  let trace1 := if didStash then trace ++ [stashPopCmd] else trace
  if pullConflictSignal errorMessage then
    { result := { success := false
                  message := "Pull failed due to conflicts with incoming changes. Please resolve manually."
                  hadConflicts := some true
                  autoStashed := none }
      didStash := didStash
      trace := trace1 ++ [rebaseAbortCmd] }
  else if noTrackingSignal errorMessage then
    { result := { success := true
                  message := "No remote tracking branch (will be created on push)"
                  hadConflicts := none
                  autoStashed := none }
      didStash := didStash
      trace := trace1 }
  else
    { result := { success := false, message := errorMessage
                  hadConflicts := none, autoStashed := none }
      didStash := didStash
      trace := trace1 }

/-- The pull step and the conditional unstash step of `pullCurrentBranch`
(source lines 2069–2103), given the branch, the pre-pull status, and
whether a stash was created. -/
def pullAndRestore (env : GitEnv) (currentBranch : String) (statusBefore : GitStatusRec)
    (didStash : Bool) (trace : List GitCmd) : PullRun :=
  let trace := trace ++ [GitCmd.pull "origin" currentBranch ["--rebase"]]
  match env.pullResult with
  | .error e => pullCatch didStash e trace
  | .ok _ =>
    if didStash then
      let trace := trace ++ [stashPopCmd]
      match env.stashPopResult with
      | .ok _ =>
        { result := { success := true
                      message := "Pulled " ++ toString statusBefore.behind ++ " commit" ++
                        pluralS statusBefore.behind ++ " and restored your uncommitted changes"
                      hadConflicts := none
                      autoStashed := some true }
          didStash := didStash, trace := trace }
      | .error stashMsg =>
        if popConflictSignal stashMsg then
          { result := { success := true
                        message := "Pulled successfully, but restoring your changes caused conflicts. Please resolve them."
                        hadConflicts := some true
                        autoStashed := some true }
            didStash := didStash, trace := trace }
        else
          { result := { success := true
                        message := "Pulled successfully. Your changes are in the stash (run git stash pop to restore)."
                        hadConflicts := none
                        autoStashed := some true }
            didStash := didStash, trace := trace }
    else
      { result := { success := true
                    message := "Pulled " ++ toString statusBefore.behind ++ " commit" ++
                      pluralS statusBefore.behind ++ " from origin"
                    hadConflicts := none
                    autoStashed := none }
        didStash := didStash, trace := trace }

/-- `pullCurrentBranch` from src/app/components/WorkView.tsx: fetch,
behind-check, conditional auto-stash, pull with rebase, conditional
unstash, with the outer catch classifying failures. -/
def pullCurrentBranch (env : GitEnv) : PullRun :=
  match env.branchLocalCurrent with
  | .error e => pullCatch false e [GitCmd.branchLocal]
  | .ok none =>
    { result := { success := false, message := "Not on a branch (detached HEAD state)"
                  hadConflicts := none, autoStashed := none }
      didStash := false
      trace := [GitCmd.branchLocal] }
  | .ok (some currentBranch) =>
    let t1 := [GitCmd.branchLocal, GitCmd.fetch "origin" currentBranch]
    match env.fetchResult with
    | .error e => pullCatch false e t1
    | .ok _ =>
      let t2 := t1 ++ [GitCmd.status]
      match env.statusResult with
      | .error e => pullCatch false e t2
      | .ok statusBefore =>
        if statusBefore.behind == 0 then
          { result := { success := true, message := "Already up to date"
                        hadConflicts := none, autoStashed := none }
            didStash := false
            trace := t2 }
        else
          if hasUncommittedChanges statusBefore then
            let t3 := t2 ++ [stashPushCmd]
            match env.stashPushResult with
            | .error e => pullCatch false e t3
            | .ok _ => pullAndRestore env currentBranch statusBefore true t3
          else
            pullAndRestore env currentBranch statusBefore false t2

/-- Is this git command a stash command (`git.raw(['stash', ...])`)? -/
def isStashCmd : GitCmd → Bool
  | .raw ("stash" :: _) => true
  | _ => false

/-- Is this git command a pull command? -/
def isPullCmd : GitCmd → Bool
  | .pull _ _ _ => true
  | _ => false

/-- Is this git command a fetch command? -/
def isFetchCmd : GitCmd → Bool
  | .fetch _ _ => true
  | _ => false

/-- The git provider type detected from the remote URL. -/
inductive RepositoryProvider where
  | github | gitlab | bitbucket | azure | local
deriving DecidableEq, Repr

/-- JS `String.prototype.toLowerCase`, character by character (the URLs
classified by `detectProvider` are ASCII). -/
def toLowerCase (s : String) : String := String.mk (s.data.map Char.toLower)

/-- The github test of `detectProvider`: `url.includes('github.com')`
on the lowercased URL. -/
def matchesGithub (url : String) : Bool := strIncludes url "github.com"

/-- The gitlab test of `detectProvider`:
`url.includes('gitlab.com') || url.includes('gitlab')`. -/
def matchesGitlab (url : String) : Bool :=
  strIncludes url "gitlab.com" || strIncludes url "gitlab"

/-- The bitbucket test of `detectProvider`:
`url.includes('bitbucket.org') || url.includes('bitbucket')`. -/
def matchesBitbucket (url : String) : Bool :=
  strIncludes url "bitbucket.org" || strIncludes url "bitbucket"

/-- The azure test of `detectProvider`:
`url.includes('azure.com') || url.includes('visualstudio.com')`. -/
def matchesAzure (url : String) : Bool :=
  strIncludes url "azure.com" || strIncludes url "visualstudio.com"

/-- `detectProvider` from the repository-context module: `none` models a
null remote URL; a JS falsy empty string also yields `local`; otherwise
the URL is lowercased and the provider tests are applied in order. -/
def detectProvider (remoteUrl : Option String) : RepositoryProvider :=
  match remoteUrl with
  | none => .local
  | some u =>
    if u.isEmpty then .local
    else
      let url := toLowerCase u
      if matchesGithub url then .github
      else if matchesGitlab url then .gitlab
      else if matchesBitbucket url then .bitbucket
      else if matchesAzure url then .azure
      else .local

/-- One entry of simple-git `getRemotes(true)`: a remote name with its
fetch and push ref URLs (either may be absent). -/
structure GitRemote where
  name : String
  refsFetch : Option String
  refsPush : Option String
deriving DecidableEq, Repr

/-- JS truthiness of an optional string: `undefined`/`null` and the empty
string are falsy. -/
def truthyStr : Option String → Option String
  | none => none
  | some s => if s.isEmpty then none else some s

/-- Environment for the repository-context factory: the response of each
git call `createRepositoryContext`, `getRemoteUrl` and `getDefaultBranch`
can make, plus the generated uuid. -/
structure RepoEnv where
  checkIsRepo : Bool
  showToplevel : String
  remotes : Except String (List GitRemote)
  remoteShowOrigin : Except String String
  branchLocalAll : Except String (List String)
  uuid : String
deriving Repr

/-- `getRemoteUrl`: find the `origin` remote and take
`origin?.refs?.fetch || origin?.refs?.push || null`; any thrown error
yields `null`. -/
def getRemoteUrl (env : RepoEnv) : Option String :=
  match env.remotes with
  | .error _ => none
  | .ok remotes =>
    match remotes.find? (fun r => r.name == "origin") with
    | none => none
    | some origin => truthyStr origin.refsFetch <|> truthyStr origin.refsPush

/-- The longest run of non-whitespace characters at the head of a char
list, i.e. what `\S+` captures at a given position (empty = no match). -/
def takeNonSpace : List Char → List Char
  | [] => []
  | c :: cs => if c.isWhitespace then [] else c :: takeNonSpace cs

/-- The literal part of the regex `/HEAD branch: (\S+)/`. -/
def headBranchLiteral : List Char := "HEAD branch: ".data

/-- Left-to-right search of `/HEAD branch: (\S+)/`: at each position, the
literal must match and at least one non-whitespace character must follow;
otherwise the search resumes one character later.  Returns the capture of
the first full match. -/
def findHeadBranch : List Char → Option String
  | [] => none
  | c :: cs =>
    if headBranchLiteral.isPrefixOf (c :: cs) then
      let cap := takeNonSpace ((c :: cs).drop headBranchLiteral.length)
      if cap.isEmpty then findHeadBranch cs else some (String.mk cap)
    else findHeadBranch cs

/-- `remoteInfo.match(/HEAD branch: (\S+)/)`, returning the capture. -/
def matchHeadBranch (info : String) : Option String := findHeadBranch info.data

/-- The first phase of `getDefaultBranch`: the branch advertised by
`git remote show origin`, if that call succeeds, returns a truthy string,
and the regex matches; errors are swallowed. -/
def remoteHeadBranch (env : RepoEnv) : Option String :=
  match env.remoteShowOrigin with
  | .error _ => none
  | .ok remoteInfo =>
    if remoteInfo.isEmpty then none
    else matchHeadBranch remoteInfo

/-- `getDefaultBranch` from the repository-context module: remote HEAD
branch if obtainable, else local `main`, else local `master`, else the
first local branch, else the literal `main`; every step swallows its
errors so the function is total. -/
def getDefaultBranch (env : RepoEnv) : String :=
  match remoteHeadBranch env with
  | some b => b
  | none =>
    match env.branchLocalAll with
    | .error _ => "main"
    | .ok all =>
      if all.contains "main" then "main"
      else if all.contains "master" then "master"
      else
        match all with
        | [] => "main"
        | b :: _ => b

/-- Node `path.basename`: the final non-empty `/`-separated segment. -/
def basename (p : String) : String :=
  match ((p.splitOn "/").filter (fun s => !s.isEmpty)).getLast? with
  | some s => s
  | none => p

/-- The cached repository metadata record. -/
structure RepositoryMetadata where
  name : String
  defaultBranch : String
  remoteUrl : Option String
  provider : RepositoryProvider
  lastFetched : Option Nat
deriving DecidableEq, Repr

/-- The repository context record (the git handle itself is represented
by the environment and is not a field of the embedded record). -/
structure RepositoryContext where
  id : String
  path : String
  name : String
  metadata : RepositoryMetadata
  deriving DecidableEq, Repr

/-- `createRepositoryContext` from the repository-context module:
validate repository-ness (throwing `Path is not a git repository` if the
check fails), canonicalize the path via `rev-parse --show-toplevel` with
a JS `trim()`, detect metadata, and build the context. -/
def createRepositoryContext (repoPath : String) (env : RepoEnv) :
    Except String RepositoryContext :=
  if !env.checkIsRepo then
    .error ("Path is not a git repository: " ++ repoPath)
  else
    let actualPath := env.showToplevel.trim
    let remoteUrl := getRemoteUrl env
    let defaultBranch := getDefaultBranch env
    let provider := detectProvider remoteUrl
    let contextName := basename actualPath
    .ok { id := env.uuid
          path := actualPath
          name := contextName
          metadata := { name := contextName
                        defaultBranch := defaultBranch
                        remoteUrl := remoteUrl
                        provider := provider
                        lastFetched := none } }

/-- One command of the commit workflow trace: the silent fetch and the
commit itself. -/
inductive CommitCmd where
  | fetch : CommitCmd
  | commit (message : String) (description : Option String) : CommitCmd
deriving DecidableEq, Repr

/-- Modelled from the spec: the commit service body
(`CommitService.commitChanges`, re-exported and called by WorkView's
`commitChanges`) is not among the sources; only its caller is.  The
environment holds what the spec's algorithm consumes: whether an active
repository context resolves, the behind-count obtained by the silent
fetch, and the outcome of the commit command (the new commit's identity,
or the underlying error message such as nothing staged). -/
structure CommitEnv where
  hasActiveContext : Bool
  behind : Nat
  commitResult : Except String String
deriving Repr

/-- Modelled from the spec: the structured result of `commitChanges` —
`success`, a message, the behind-count carried by the "behind" result,
and the new commit's identity on success. -/
structure CommitOutcome where
  success : Bool
  message : String
  behindCount : Option Nat
  commitHash : Option String
deriving DecidableEq, Repr

/-- Modelled from the spec: `commitChanges(message, description, force)`.
1. resolve the active context (fail `NoRepositorySelected` if none);
2. fetch the remote silently for an accurate behind-count;
3. if behind-count > 0 and not `force`, abort and return the structured
   "behind" result carrying the count, without committing;
4. otherwise create the commit from the staged content;
5. report success with the commit identity, or failure with the
   underlying error message. -/
def commitChanges (env : CommitEnv) (message : String) (description : Option String)
    (force : Bool) : CommitOutcome × List CommitCmd :=
  if !env.hasActiveContext then
    ({ success := false, message := "No repository selected"
       behindCount := none, commitHash := none }, [])
  else
    let trace := [CommitCmd.fetch]
    if env.behind > 0 && !force then
      ({ success := false
         message := "Behind remote by " ++ toString env.behind
         behindCount := some env.behind
         commitHash := none }, trace)
    else
      match env.commitResult with
      | .ok hash =>
        ({ success := true, message := "Committed"
           behindCount := none, commitHash := some hash },
         trace ++ [CommitCmd.commit message description])
      | .error e =>
        ({ success := false, message := e
           behindCount := none, commitHash := none },
         trace ++ [CommitCmd.commit message description])

/-- Is this a commit-creating command? -/
def isCommitCmd : CommitCmd → Bool
  | .commit _ _ => true
  | .fetch => false

/-- Environment for the `select-repo` IPC handler: the directory chosen
in the dialog (`none` when the dialog was canceled or returned no path)
and the behaviour of `manager.open` on the selected path (`ok` carries
the opened context's canonical root path). -/
structure RepoHandlerEnv where
  dialogResult : Option String
  managerOpen : String → Except String String

/-- The legacy global state the handler mutates: the git-service
`repoPath` global and the settings-service last repository path. -/
structure HandlerState where
  repoPath : Option String
  savedRepoPath : Option String
deriving DecidableEq, Repr

/-- The `select-repo` handler from the repo handlers module: on cancel,
return null leaving the state alone; on `manager.open` success, set the
legacy global and the saved path to the context's canonical path and
return it; on `manager.open` failure, fall back to the legacy behaviour,
setting both to the raw selected path and returning it. -/
def selectRepo (env : RepoHandlerEnv) (st : HandlerState) :
    Option String × HandlerState :=
  match env.dialogResult with
  | none => (none, st)
  | some selectedPath =>
    match env.managerOpen selectedPath with
    | .ok ctxPath =>
      (some ctxPath, { repoPath := some ctxPath, savedRepoPath := some ctxPath })
    | .error _ =>
      (some selectedPath,
       { repoPath := some selectedPath, savedRepoPath := some selectedPath })

/-! Concrete example environments used by the witness theorems. -/

/-- A status two commits behind with one modified file (dirty tree). -/
def stDirty : GitStatusRec :=
  { behind := 2, modified := ["a.txt"], not_added := [], created := [],
    deleted := [], staged := [] }

/-- A status with behind-count zero and a dirty tree. -/
def stUpToDate : GitStatusRec :=
  { behind := 0, modified := ["a.txt"], not_added := [], created := [],
    deleted := [], staged := [] }

/-- A run where every git call succeeds on a dirty tree behind origin. -/
def gitEnvDirty : GitEnv :=
  { branchLocalCurrent := .ok (some "main"), fetchResult := .ok (),
    statusResult := .ok stDirty, stashPushResult := .ok (),
    pullResult := .ok (), stashPopResult := .ok () }

/-- A run where the branch is not behind its remote. -/
def gitEnvUpToDate : GitEnv :=
  { gitEnvDirty with statusResult := .ok stUpToDate }

/-- A run where the stash pop after a successful pull signals a conflict. -/
def gitEnvPopConflict : GitEnv :=
  { gitEnvDirty with stashPopResult := .error "CONFLICT (content): Merge conflict in a.txt" }

/-- A run where the stash pop after a successful pull fails for a
non-conflict reason. -/
def gitEnvPopOther : GitEnv :=
  { gitEnvDirty with stashPopResult := .error "stash pop failed: index is locked" }

/-- A run where the pull itself rejects with a conflict message and the
best-effort recovery pop also fails. -/
def gitEnvPullConflict : GitEnv :=
  { gitEnvDirty with
    pullResult := .error "error: could not apply 1234abc",
    stashPopResult := .error "pop failed too" }

/-- A run on a detached HEAD (`branchLocal().current` is null). -/
def gitEnvDetached : GitEnv :=
  { gitEnvDirty with branchLocalCurrent := .ok none }

/-- A commit attempt three commits behind origin, with a commit that
would succeed. -/
def commitEnvBehind : CommitEnv :=
  { hasActiveContext := true, behind := 3, commitResult := .ok "abc1234" }

/-- A valid repository whose remote list is empty; the remote-show call
rejects and the only local branch is main.  The toplevel carries the
trailing newline `rev-parse` output has before `trim()`. -/
def repoEnvNoOrigin : RepoEnv :=
  { checkIsRepo := true, showToplevel := "/home/user/repo\n",
    remotes := .ok [], remoteShowOrigin := .error "fatal: no such remote",
    branchLocalAll := .ok ["main"], uuid := "id-1" }

/-- The same repository with a remote that advertises a HEAD branch. -/
def repoEnvRemoteHead : RepoEnv :=
  { repoEnvNoOrigin with
    remoteShowOrigin := .ok "* remote origin\n  HEAD branch: develop\n" }

/-- A select-repo invocation where `manager.open` rejects on the chosen
directory. -/
def handlerEnvOpenFails : RepoHandlerEnv :=
  { dialogResult := some "/tmp/notrepo",
    managerOpen := fun p => .error ("Path is not a git repository: " ++ p) }

/-- Claim C1: when the branch resolves, the fetch and status succeed, and
the branch is behind its remote, a dirty tree (any of modified, untracked,
created, deleted, staged non-empty) makes `pullCurrentBranch` issue the
marker-tagged, untracked-including stash push and set `didStash = true`
before the rebase pull; a clean tree makes it pull without ever issuing a
stash push. -/
theorem pullCurrentBranch_autoStash_before_pull (env : GitEnv) (b : String) (st : GitStatusRec)
    (hb : env.branchLocalCurrent = .ok (some b))
    (hf : env.fetchResult = .ok ())
    (hs : env.statusResult = .ok st)
    (hbehind : st.behind ≠ 0) :
    (hasUncommittedChanges st = true → env.stashPushResult = .ok () →
      (pullCurrentBranch env).didStash = true ∧
      ∃ rest, (pullCurrentBranch env).trace =
        [GitCmd.branchLocal, GitCmd.fetch "origin" b, GitCmd.status, stashPushCmd,
         GitCmd.pull "origin" b ["--rebase"]] ++ rest) ∧
    (hasUncommittedChanges st = false →
      (pullCurrentBranch env).didStash = false ∧
      stashPushCmd ∉ (pullCurrentBranch env).trace ∧
      ∃ rest, (pullCurrentBranch env).trace =
        [GitCmd.branchLocal, GitCmd.fetch "origin" b, GitCmd.status,
         GitCmd.pull "origin" b ["--rebase"]] ++ rest) := by
  have h0 : (st.behind == 0) = false := by simp [hbehind]
  constructor
  · intro hdirty hpush
    have hrun : pullCurrentBranch env =
        pullAndRestore env b st true
          [GitCmd.branchLocal, GitCmd.fetch "origin" b, GitCmd.status, stashPushCmd] := by
      simp [pullCurrentBranch, hb, hf, hs, h0, hdirty, hpush]
    rw [hrun]
    unfold pullAndRestore
    cases hp : env.pullResult with
    | ok _ =>
      simp only [hp]
      cases hq : env.stashPopResult with
      | ok _ => exact ⟨by trivial, [stashPopCmd], rfl⟩
      | error m =>
        by_cases hc : popConflictSignal m = true
        · simp only [hc, if_true]
          exact ⟨by trivial, [stashPopCmd], rfl⟩
        · simp only [eq_false_of_ne_true hc, if_false]
          exact ⟨by trivial, [stashPopCmd], rfl⟩
    | error e =>
      simp only [hp]
      unfold pullCatch
      by_cases hc : pullConflictSignal e = true
      · simp only [hc, if_true]
        exact ⟨by trivial, [stashPopCmd, rebaseAbortCmd], rfl⟩
      · by_cases hn : noTrackingSignal e = true
        · simp only [eq_false_of_ne_true hc, hn, if_true, if_false]
          exact ⟨by trivial, [stashPopCmd], rfl⟩
        · simp only [eq_false_of_ne_true hc, eq_false_of_ne_true hn, if_false]
          exact ⟨by trivial, [stashPopCmd], rfl⟩
  · intro hclean
    have hrun : pullCurrentBranch env =
        pullAndRestore env b st false
          [GitCmd.branchLocal, GitCmd.fetch "origin" b, GitCmd.status] := by
      simp [pullCurrentBranch, hb, hf, hs, h0, hclean]
    rw [hrun]
    unfold pullAndRestore
    cases hp : env.pullResult with
    | ok _ =>
      simp only [hp]
      refine ⟨by trivial, ?_, [], rfl⟩
      simp [stashPushCmd]
    | error e =>
      simp only [hp]
      unfold pullCatch
      by_cases hc : pullConflictSignal e = true
      · simp only [hc, if_true]
        refine ⟨by trivial, ?_, [rebaseAbortCmd], rfl⟩
        simp [stashPushCmd, rebaseAbortCmd]
      · by_cases hn : noTrackingSignal e = true
        · simp only [eq_false_of_ne_true hc, hn, if_true, if_false]
          refine ⟨by trivial, ?_, [], rfl⟩
          simp [stashPushCmd]
        · simp only [eq_false_of_ne_true hc, eq_false_of_ne_true hn, if_false]
          refine ⟨by trivial, ?_, [], rfl⟩
          simp [stashPushCmd]

/-- Witness for C1: on a concrete dirty behind run, the stash push is
issued and `didStash` is set before the rebase pull. -/
theorem pullCurrentBranch_autoStash_before_pull_witness :
    (pullCurrentBranch gitEnvDirty).didStash = true ∧
    (pullCurrentBranch gitEnvDirty).trace.take 5 =
      [GitCmd.branchLocal, GitCmd.fetch "origin" "main", GitCmd.status, stashPushCmd,
       GitCmd.pull "origin" "main" ["--rebase"]] := by
  obtain ⟨hd, rest, hrest⟩ :=
    (pullCurrentBranch_autoStash_before_pull gitEnvDirty "main" stDirty rfl rfl rfl
      (by decide)).1 (by decide) rfl
  exact ⟨hd, by rw [hrest]; rfl⟩

/-- Claim C2: when the post-fetch behind-count is zero,
`pullCurrentBranch` reports success with "Already up to date" and its
trace contains no stash command and no pull command. -/
theorem pullCurrentBranch_already_up_to_date (env : GitEnv) (b : String) (st : GitStatusRec)
    (hb : env.branchLocalCurrent = .ok (some b))
    (hf : env.fetchResult = .ok ())
    (hs : env.statusResult = .ok st)
    (h0 : st.behind = 0) :
    (pullCurrentBranch env).result.success = true ∧
    (pullCurrentBranch env).result.message = "Already up to date" ∧
    ∀ c ∈ (pullCurrentBranch env).trace, isStashCmd c = false ∧ isPullCmd c = false := by
  simp [pullCurrentBranch, hb, hf, hs, h0, isStashCmd, isPullCmd]

/-- Witness for C2: a concrete not-behind run reports "Already up to
date" successfully. -/
theorem pullCurrentBranch_already_up_to_date_witness :
    (pullCurrentBranch gitEnvUpToDate).result.success = true ∧
    (pullCurrentBranch gitEnvUpToDate).result.message = "Already up to date" := by
  have h := pullCurrentBranch_already_up_to_date gitEnvUpToDate "main" stUpToDate rfl rfl rfl rfl
  exact ⟨h.1, h.2.1⟩

/-- Claim C3: when the auto-stash was created and the pull succeeded but
the stash pop rejects, a conflict-signalling pop message yields
`success = true` with `hadConflicts = true`, and a non-conflict pop
failure yields `success = true` with the changes-remain-in-stash message
and exactly one pop attempt in the trace. -/
theorem pullCurrentBranch_stash_pop_failure (env : GitEnv) (b : String) (st : GitStatusRec)
    (m : String)
    (hb : env.branchLocalCurrent = .ok (some b))
    (hf : env.fetchResult = .ok ())
    (hs : env.statusResult = .ok st)
    (hbehind : st.behind ≠ 0)
    (hdirty : hasUncommittedChanges st = true)
    (hpush : env.stashPushResult = .ok ())
    (hpull : env.pullResult = .ok ())
    (hpop : env.stashPopResult = .error m) :
    (popConflictSignal m = true →
      (pullCurrentBranch env).result.success = true ∧
      (pullCurrentBranch env).result.hadConflicts = some true) ∧
    (popConflictSignal m = false →
      (pullCurrentBranch env).result.success = true ∧
      (pullCurrentBranch env).result.message =
        "Pulled successfully. Your changes are in the stash (run git stash pop to restore)." ∧
      (pullCurrentBranch env).trace.count stashPopCmd = 1) := by
  have h0 : (st.behind == 0) = false := by simp [hbehind]
  have hrun : pullCurrentBranch env =
      pullAndRestore env b st true
        [GitCmd.branchLocal, GitCmd.fetch "origin" b, GitCmd.status, stashPushCmd] := by
    simp [pullCurrentBranch, hb, hf, hs, h0, hdirty, hpush]
  rw [hrun]
  unfold pullAndRestore
  simp only [hpull, hpop]
  constructor
  · intro hc
    simp only [hc, if_true]
    exact ⟨by trivial, by trivial⟩
  · intro hc
    simp only [hc, if_false]
    refine ⟨by trivial, by trivial, ?_⟩
    rfl

/-- Witness for C3: a conflict-signalling pop reports success with
conflicts; a non-conflict pop failure reports success with a single pop
attempt. -/
theorem pullCurrentBranch_stash_pop_failure_witness :
    ((pullCurrentBranch gitEnvPopConflict).result.success = true ∧
     (pullCurrentBranch gitEnvPopConflict).result.hadConflicts = some true) ∧
    ((pullCurrentBranch gitEnvPopOther).result.success = true ∧
     (pullCurrentBranch gitEnvPopOther).trace.count stashPopCmd = 1) := by
  have h1 := (pullCurrentBranch_stash_pop_failure gitEnvPopConflict "main" stDirty
    "CONFLICT (content): Merge conflict in a.txt" rfl rfl rfl (by decide) (by decide)
    rfl rfl rfl).1 (by decide)
  have h2 := (pullCurrentBranch_stash_pop_failure gitEnvPopOther "main" stDirty
    "stash pop failed: index is locked" rfl rfl rfl (by decide) (by decide)
    rfl rfl rfl).2 (by decide)
  exact ⟨⟨h1.1, h1.2⟩, ⟨h2.1, h2.2.2⟩⟩

/-- Claim C4: when the pull itself rejects after a successful
fetch/compare, a created stash is popped back best-effort with the pop's
own outcome never influencing the reported result; a conflict-keyword
message yields `success = false`, `hadConflicts = true` and a best-effort
rebase abort; a no-tracking-branch message yields benign success; any
other message is reported raw as a failure. -/
theorem pullCurrentBranch_pull_failure_recovery (env : GitEnv) (b : String) (st : GitStatusRec)
    (m : String)
    (hb : env.branchLocalCurrent = .ok (some b))
    (hf : env.fetchResult = .ok ())
    (hs : env.statusResult = .ok st)
    (hbehind : st.behind ≠ 0)
    (hreach : hasUncommittedChanges st = true → env.stashPushResult = .ok ())
    (hpull : env.pullResult = .error m) :
    (hasUncommittedChanges st = true →
      stashPopCmd ∈ (pullCurrentBranch env).trace ∧
      ∀ x, (pullCurrentBranch { env with stashPopResult := x }).result =
           (pullCurrentBranch env).result) ∧
    (pullConflictSignal m = true →
      (pullCurrentBranch env).result.success = false ∧
      (pullCurrentBranch env).result.hadConflicts = some true ∧
      rebaseAbortCmd ∈ (pullCurrentBranch env).trace) ∧
    (pullConflictSignal m = false → noTrackingSignal m = true →
      (pullCurrentBranch env).result.success = true ∧
      (pullCurrentBranch env).result.message =
        "No remote tracking branch (will be created on push)") ∧
    (pullConflictSignal m = false → noTrackingSignal m = false →
      (pullCurrentBranch env).result.success = false ∧
      (pullCurrentBranch env).result.message = m) := by
  have h0 : (st.behind == 0) = false := by simp [hbehind]
  by_cases hd : hasUncommittedChanges st = true
  · have hrun : pullCurrentBranch env =
        pullCatch true m
          [GitCmd.branchLocal, GitCmd.fetch "origin" b, GitCmd.status, stashPushCmd,
           GitCmd.pull "origin" b ["--rebase"]] := by
      simp [pullCurrentBranch, hb, hf, hs, h0, hd, hreach hd, pullAndRestore, hpull]
    have hrun' : ∀ x, pullCurrentBranch { env with stashPopResult := x } =
        pullCatch true m
          [GitCmd.branchLocal, GitCmd.fetch "origin" b, GitCmd.status, stashPushCmd,
           GitCmd.pull "origin" b ["--rebase"]] := by
      intro x
      simp [pullCurrentBranch, hb, hf, hs, h0, hd, hreach hd, pullAndRestore, hpull]
    rw [hrun]
    refine ⟨fun _ => ⟨?_, fun x => by rw [hrun' x]⟩, ?_, ?_, ?_⟩
    · unfold pullCatch
      by_cases hc : pullConflictSignal m = true
      · simp [hc]
      · by_cases hn : noTrackingSignal m = true
        · simp [eq_false_of_ne_true hc, hn]
        · simp [eq_false_of_ne_true hc, eq_false_of_ne_true hn]
    · intro hc
      unfold pullCatch
      simp only [hc, if_true]
      refine ⟨by trivial, by trivial, ?_⟩
      simp
    · intro hc hn
      unfold pullCatch
      simp only [hc, hn, if_true, if_false]
      exact ⟨by trivial, by trivial⟩
    · intro hc hn
      unfold pullCatch
      simp only [hc, hn, if_false]
      exact ⟨by trivial, by trivial⟩
  · have hd' : hasUncommittedChanges st = false := eq_false_of_ne_true hd
    have hrun : pullCurrentBranch env =
        pullCatch false m
          [GitCmd.branchLocal, GitCmd.fetch "origin" b, GitCmd.status,
           GitCmd.pull "origin" b ["--rebase"]] := by
      simp [pullCurrentBranch, hb, hf, hs, h0, hd', pullAndRestore, hpull]
    rw [hrun]
    refine ⟨fun hcon => absurd hcon hd, ?_, ?_, ?_⟩
    · intro hc
      unfold pullCatch
      simp only [hc, if_true]
      refine ⟨by trivial, by trivial, ?_⟩
      simp
    · intro hc hn
      unfold pullCatch
      simp only [hc, hn, if_true, if_false]
      exact ⟨by trivial, by trivial⟩
    · intro hc hn
      unfold pullCatch
      simp only [hc, hn, if_false]
      exact ⟨by trivial, by trivial⟩

/-- Witness for C4: on a concrete conflicting failed pull with a stash,
the recovery pop is attempted, the rebase abort is attempted, and the
result is a conflict failure. -/
theorem pullCurrentBranch_pull_failure_recovery_witness :
    stashPopCmd ∈ (pullCurrentBranch gitEnvPullConflict).trace ∧
    (pullCurrentBranch gitEnvPullConflict).result.success = false ∧
    (pullCurrentBranch gitEnvPullConflict).result.hadConflicts = some true ∧
    rebaseAbortCmd ∈ (pullCurrentBranch gitEnvPullConflict).trace := by
  have h := pullCurrentBranch_pull_failure_recovery gitEnvPullConflict "main" stDirty
    "error: could not apply 1234abc" rfl rfl rfl (by decide) (fun _ => rfl) rfl
  have h1 := h.1 (by decide)
  have h2 := h.2.1 (by decide)
  exact ⟨h1.1, h2.1, h2.2.1, h2.2.2⟩

/-- Claim C5: with an active context and a behind-count N greater than
zero, `commitChanges` without `force` creates no commit and returns the
structured behind result carrying N, while `commitChanges` with
`force = true` issues the commit command regardless of N. -/
theorem commitChanges_behind_gate (env : CommitEnv) (msg : String) (d : Option String)
    (N : Nat)
    (hctx : env.hasActiveContext = true)
    (hN : env.behind = N) (hpos : 0 < N) :
    ((commitChanges env msg d false).1.behindCount = some N ∧
     (commitChanges env msg d false).1.success = false ∧
     ∀ c ∈ (commitChanges env msg d false).2, isCommitCmd c = false) ∧
    (CommitCmd.commit msg d ∈ (commitChanges env msg d true).2 ∧
     isCommitCmd (CommitCmd.commit msg d) = true) := by
  constructor
  · simp [commitChanges, hctx, hN, hpos, isCommitCmd, Nat.pos_iff_ne_zero.mp hpos]
  · constructor
    · cases hc : env.commitResult with
      | ok h => simp [commitChanges, hctx, hc]
      | error e => simp [commitChanges, hctx, hc]
    · rfl

/-- Witness for C5: three commits behind, the unforced call returns the
behind result without committing; the forced call issues the commit. -/
theorem commitChanges_behind_gate_witness :
    (commitChanges commitEnvBehind "msg" none false).1.behindCount = some 3 ∧
    (commitChanges commitEnvBehind "msg" none false).1.success = false ∧
    CommitCmd.commit "msg" none ∈ (commitChanges commitEnvBehind "msg" none true).2 := by
  have h := commitChanges_behind_gate commitEnvBehind "msg" none 3 rfl rfl (by decide)
  exact ⟨h.1.1, h.1.2.1, h.2.1⟩

/-- Claim C6: on a detached HEAD (no current branch), `pullCurrentBranch`
returns a failure result and its trace contains no fetch command and no
stash command. -/
theorem pullCurrentBranch_detached_head (env : GitEnv)
    (hb : env.branchLocalCurrent = .ok none) :
    (pullCurrentBranch env).result.success = false ∧
    (pullCurrentBranch env).result.message = "Not on a branch (detached HEAD state)" ∧
    ∀ c ∈ (pullCurrentBranch env).trace, isFetchCmd c = false ∧ isStashCmd c = false := by
  simp [pullCurrentBranch, hb, isFetchCmd, isStashCmd]

/-- Witness for C6: a concrete detached-HEAD run fails with the detached
HEAD message. -/
theorem pullCurrentBranch_detached_head_witness :
    (pullCurrentBranch gitEnvDetached).result.success = false ∧
    (pullCurrentBranch gitEnvDetached).result.message =
      "Not on a branch (detached HEAD state)" := by
  have h := pullCurrentBranch_detached_head gitEnvDetached rfl
  exact ⟨h.1, h.2.1⟩

/-- Claim C7: `createRepositoryContext` fails with the
not-a-git-repository error when the path is not inside a working tree;
otherwise it returns a context whose path is the trimmed
`rev-parse --show-toplevel` output, and a remote list without `origin`
still yields a context, with `remoteUrl = none`. -/
theorem createRepositoryContext_canonical_root (repoPath : String) (env : RepoEnv) :
    (env.checkIsRepo = false →
      createRepositoryContext repoPath env =
        .error ("Path is not a git repository: " ++ repoPath)) ∧
    (env.checkIsRepo = true →
      ∃ ctx, createRepositoryContext repoPath env = .ok ctx ∧
        ctx.path = env.showToplevel.trim) ∧
    (∀ remotes, env.checkIsRepo = true → env.remotes = .ok remotes →
      remotes.find? (fun r => r.name == "origin") = none →
      ∃ ctx, createRepositoryContext repoPath env = .ok ctx ∧
        ctx.metadata.remoteUrl = none) := by
  refine ⟨fun h => by simp [createRepositoryContext, h], fun h => ?_,
          fun remotes h hr hfind => ?_⟩
  · simp only [createRepositoryContext, h, Bool.not_true, Bool.false_eq_true, if_false]
    exact ⟨_, rfl, rfl⟩
  · simp only [createRepositoryContext, h, Bool.not_true, Bool.false_eq_true, if_false]
    refine ⟨_, rfl, ?_⟩
    simp [getRemoteUrl, hr, hfind]

/-- Witness for C7: a non-repository path fails; a valid repository with
no origin remote yields a context rooted at the trimmed toplevel with a
null remote URL. -/
theorem createRepositoryContext_canonical_root_witness :
    (createRepositoryContext "/tmp/nope" { repoEnvNoOrigin with checkIsRepo := false } =
      .error ("Path is not a git repository: " ++ "/tmp/nope")) ∧
    (∃ ctx, createRepositoryContext "/home/user/repo/sub" repoEnvNoOrigin = .ok ctx ∧
      ctx.path = repoEnvNoOrigin.showToplevel.trim) ∧
    (∃ ctx, createRepositoryContext "/home/user/repo/sub" repoEnvNoOrigin = .ok ctx ∧
      ctx.metadata.remoteUrl = none) :=
  ⟨(createRepositoryContext_canonical_root "/tmp/nope"
      { repoEnvNoOrigin with checkIsRepo := false }).1 rfl,
   (createRepositoryContext_canonical_root "/home/user/repo/sub" repoEnvNoOrigin).2.1 rfl,
   (createRepositoryContext_canonical_root "/home/user/repo/sub" repoEnvNoOrigin).2.2
     [] rfl rfl rfl⟩

/-- Claim C8: `getDefaultBranch` returns the remote-advertised HEAD
branch when obtainable; otherwise local `main` if present, else local
`master`, else the first local branch, else the literal `main`, with a
failing local-branch listing also swallowed into `main`. -/
theorem getDefaultBranch_fallback_chain (env : RepoEnv) :
    (∀ b, remoteHeadBranch env = some b → getDefaultBranch env = b) ∧
    (remoteHeadBranch env = none →
      (∀ all, env.branchLocalAll = .ok all →
        (all.contains "main" = true → getDefaultBranch env = "main") ∧
        (all.contains "main" = false → all.contains "master" = true →
          getDefaultBranch env = "master") ∧
        (all.contains "main" = false → all.contains "master" = false →
          ∀ b rest, all = b :: rest → getDefaultBranch env = b) ∧
        (all = [] → getDefaultBranch env = "main")) ∧
      (∀ e, env.branchLocalAll = .error e → getDefaultBranch env = "main")) := by
  constructor
  · intro b hb
    simp [getDefaultBranch, hb]
  · intro hnone
    refine ⟨fun all hall => ⟨?_, ?_, ?_, ?_⟩, fun e he => ?_⟩
    · intro hmain
      have h1 : "main" ∈ all := by simpa using hmain
      simp [getDefaultBranch, hnone, hall, h1]
    · intro hmain hmaster
      have h1 : "main" ∉ all := by simpa using hmain
      have h2 : "master" ∈ all := by simpa using hmaster
      simp [getDefaultBranch, hnone, hall, h1, h2]
    · intro hmain hmaster b rest hcons
      subst hcons
      have h1 : "main" ∉ b :: rest := by simpa using hmain
      have h2 : "master" ∉ b :: rest := by simpa using hmaster
      simp only [List.mem_cons, not_or] at h1 h2
      simp [getDefaultBranch, hnone, hall, h1.1, h1.2, h2.1, h2.2]
    · intro hnil
      subst hnil
      simp [getDefaultBranch, hnone, hall]
    · simp [getDefaultBranch, hnone, he]

/-- Witness for C8: a repository advertising `HEAD branch: develop` gets
`develop`; one whose remote-show call rejects falls back to local
`main`. -/
theorem getDefaultBranch_fallback_chain_witness :
    getDefaultBranch repoEnvRemoteHead = "develop" ∧
    getDefaultBranch repoEnvNoOrigin = "main" := by
  refine ⟨(getDefaultBranch_fallback_chain repoEnvRemoteHead).1 "develop" (by decide), ?_⟩
  exact ((((getDefaultBranch_fallback_chain repoEnvNoOrigin).2 rfl).1 ["main"] rfl).1
    (by decide))

/-- Counterexample for C9: the URL `https://github.com/gitlab` contains
the gitlab substring yet `detectProvider` classifies it github, so the
per-category mapping of the claim (a URL containing gitlab maps to
gitlab) and its clause that no URL matches more than one category are
both false as stated. -/
theorem detectProvider_overlap_counterexample :
    matchesGitlab (toLowerCase "https://github.com/gitlab") = true ∧
    matchesGithub (toLowerCase "https://github.com/gitlab") = true ∧
    detectProvider (some "https://github.com/gitlab") = RepositoryProvider.github ∧
    detectProvider (some "https://github.com/gitlab") ≠ RepositoryProvider.gitlab := by
  refine ⟨by decide, by decide, by decide, by decide⟩

/-- Claim C9 as amended: `detectProvider` classifies by substring match
on the lowercased URL, applying the category tests in the order github,
gitlab, bitbucket, azure and returning the first that matches; a null or
empty URL, or one matching no category, maps to local.  When a URL
contains substrings of several categories, the earliest in that order
wins. -/
theorem detectProvider_first_match (u : String) (hu : u.isEmpty = false) :
    (detectProvider none = RepositoryProvider.local) ∧
    (detectProvider (some "") = RepositoryProvider.local) ∧
    (matchesGithub (toLowerCase u) = true →
      detectProvider (some u) = RepositoryProvider.github) ∧
    (matchesGithub (toLowerCase u) = false → matchesGitlab (toLowerCase u) = true →
      detectProvider (some u) = RepositoryProvider.gitlab) ∧
    (matchesGithub (toLowerCase u) = false → matchesGitlab (toLowerCase u) = false →
      matchesBitbucket (toLowerCase u) = true →
      detectProvider (some u) = RepositoryProvider.bitbucket) ∧
    (matchesGithub (toLowerCase u) = false → matchesGitlab (toLowerCase u) = false →
      matchesBitbucket (toLowerCase u) = false → matchesAzure (toLowerCase u) = true →
      detectProvider (some u) = RepositoryProvider.azure) ∧
    (matchesGithub (toLowerCase u) = false → matchesGitlab (toLowerCase u) = false →
      matchesBitbucket (toLowerCase u) = false → matchesAzure (toLowerCase u) = false →
      detectProvider (some u) = RepositoryProvider.local) := by
  refine ⟨rfl, rfl, ?_, ?_, ?_, ?_, ?_⟩
  · intro h1; simp [detectProvider, hu, h1]
  · intro h1 h2; simp [detectProvider, hu, h1, h2]
  · intro h1 h2 h3; simp [detectProvider, hu, h1, h2, h3]
  · intro h1 h2 h3 h4; simp [detectProvider, hu, h1, h2, h3, h4]
  · intro h1 h2 h3 h4; simp [detectProvider, hu, h1, h2, h3, h4]

/-- Witness for C9: the spec's own examples — a github https URL, a
gitlab ssh URL, and a null remote. -/
theorem detectProvider_first_match_witness :
    detectProvider (some "git@gitlab.com:x/y.git") = RepositoryProvider.gitlab ∧
    detectProvider (some "https://github.com/x/y.git") = RepositoryProvider.github ∧
    detectProvider none = RepositoryProvider.local :=
  ⟨(detectProvider_first_match "git@gitlab.com:x/y.git" rfl).2.2.2.1 (by decide) (by decide),
   (detectProvider_first_match "https://github.com/x/y.git" rfl).2.2.1 (by decide),
   (detectProvider_first_match "x" rfl).1⟩

/-- Claim C10: when the select-repo dialog yields a path and
`manager.open` rejects on it, the handler swallows the failure, sets the
legacy global repo path and the saved last-repository path to the raw
selected path, and returns that raw path. -/
theorem selectRepo_open_failure_fallback (env : RepoHandlerEnv) (st : HandlerState)
    (p e : String)
    (hd : env.dialogResult = some p)
    (ho : env.managerOpen p = .error e) :
    selectRepo env st =
      (some p, { repoPath := some p, savedRepoPath := some p }) := by
  simp [selectRepo, hd, ho]

/-- Witness for C10: a concrete failing `manager.open` still returns the
selected path and records it in both legacy slots. -/
theorem selectRepo_open_failure_fallback_witness :
    selectRepo handlerEnvOpenFails { repoPath := none, savedRepoPath := none } =
      (some "/tmp/notrepo",
       { repoPath := some "/tmp/notrepo", savedRepoPath := some "/tmp/notrepo" }) :=
  selectRepo_open_failure_fallback handlerEnvOpenFails
    { repoPath := none, savedRepoPath := none } "/tmp/notrepo"
    ("Path is not a git repository: " ++ "/tmp/notrepo") rfl rfl
